import Mathlib

/-!
Shallow embedding of the TravelCompanion server core: the entity store
(src/shared/schema.ts together with the DatabaseStorage class in
src/server/routes.ts), the authorization-gated route handlers
(src/server/routes.ts) and the weather cache policy (src/server/weather.ts).

Modelling conventions, noted once here:
- SQLite rows become Lean structures; a table is a `List` of rows inside a
  `Store` record.  Per-table autoincrement counters are carried for the
  tables the modelled operations insert into.
- Dates that the source stores as ISO strings and compares after
  normalising to midnight (`setHours(0,0,0,0)`) are modelled as integer
  day numbers; timestamps compared in milliseconds
  (`new Date().getTime()`) are modelled as natural-number milliseconds.
  JavaScript's `now - t < cacheTime` treats a negative difference as
  fresh; natural-number truncated subtraction gives `0 < cacheTime` in
  exactly the same situation, so the branch structure is preserved.
- `JSON.stringify` on write and `JSON.parse` on read of the weather cache
  are inverse; the cache row therefore stores the `WeatherData` value
  itself.
- A SQL `SELECT ... WHERE` is a `List.filter`; destructuring the first row
  (`const [x] = await db.select()...`) is `List.find?`.  `ORDER BY`
  clauses that only permute the result rows of a query no claim is
  order-sensitive about are dropped.
- The upstream OpenWeatherMap HTTP call is an oracle parameter:
  `some u` is a successful 2xx response already decoded to the fields the
  source reads (with `Math.round(data.main.temp)` modelled as the integer
  `u.temp`), `none` is any failure (non-2xx or unreachable), which the
  source turns into a thrown error caught by the surrounding `catch`.
-/

/-- Row of the `users` table (src/shared/schema.ts lines 6-12). -/
structure User where
  id : Nat
  username : String
  password : String
  email : String
  name : String
  deriving Repr, DecidableEq

/-- Row of the `trips` table (src/shared/schema.ts lines 15-25); start and
end dates are day numbers (stored as ISO strings in the source). -/
structure Trip where
  id : Nat
  userId : Nat
  name : String
  destination : String
  startDate : Int
  endDate : Int
  imageUrl : Option String
  description : Option String
  isShared : Bool
  deriving Repr, DecidableEq

/-- Row of the `trip_members` table (src/shared/schema.ts lines 64-69); the
role column is a raw string with SQL default "viewer". -/
structure TripMember where
  id : Nat
  tripId : Nat
  userId : Nat
  role : String
  deriving Repr, DecidableEq

/-- Row of the `schedules` table (src/shared/schema.ts lines 36-44). -/
structure Schedule where
  id : Nat
  tripId : Nat
  day : Int
  title : String
  time : Option String
  location : Option String
  description : Option String
  deriving Repr, DecidableEq

/-- Row of the `packing_items` table (src/shared/schema.ts lines 54-61). -/
structure PackingItem where
  id : Nat
  tripId : Nat
  categoryId : Option Nat
  name : String
  isPacked : Bool
  quantity : Nat
  deriving Repr, DecidableEq

/-- Row of the `trip_tags` table (src/shared/schema.ts lines 28-33). -/
structure TripTag where
  id : Nat
  tripId : Nat
  name : String
  color : String
  deriving Repr, DecidableEq

/-- The formatted weather payload built in src/server/weather.ts lines
46-52 (interface WeatherData, lines 5-11). -/
structure WeatherData where
  temperature : Int
  condition : String
  location : String
  date : String
  icon : String
  deriving Repr, DecidableEq

/-- Row of the `weather_cache` table (src/shared/schema.ts lines 72-77);
the `data` column holds the JSON-serialized `WeatherData`, modelled as the
value itself, and `timestamp` is in milliseconds. -/
structure WeatherCacheRow where
  id : Nat
  location : String
  data : WeatherData
  timestamp : Nat
  deriving Repr, DecidableEq

/-- The fields of a successful OpenWeatherMap current-weather response that
getWeatherForLocation reads (src/server/weather.ts lines 43-52). -/
structure Upstream where
  temp : Int
  condition : String
  name : String
  icon : String
  deriving Repr, DecidableEq

/-- One 3-hour entry of an OpenWeatherMap forecast response as read by
getForecast (src/server/weather.ts lines 131-138): `dt_txt` split into its
date and time parts, plus the fields used for formatting. -/
structure ForecastItem where
  dtDate : String
  dtTime : String
  temp : Int
  condition : String
  icon : String
  deriving Repr, DecidableEq

/-- A successful OpenWeatherMap forecast response: the city name and the
3-hour entry list (src/server/weather.ts lines 125-147). -/
structure ForecastUpstream where
  cityName : String
  list : List ForecastItem
  deriving Repr, DecidableEq

/-- The database state: one list per table of src/shared/schema.ts, plus
autoincrement counters for the tables the modelled operations insert
into. -/
structure Store where
  users : List User
  trips : List Trip
  schedules : List Schedule
  packingItems : List PackingItem
  tripTags : List TripTag
  tripMembers : List TripMember
  weatherCache : List WeatherCacheRow
  nextMemberId : Nat
  nextScheduleId : Nat
  nextCacheId : Nat
  deriving Repr, DecidableEq

/-- An HTTP response: `ok` is `res.json(body)` (2xx), `err` is
`res.status(s).json(message)`. -/
inductive HttpReply (α : Type) where
  | ok (body : α)
  | err (status : Nat) (message : String)
  deriving Repr, DecidableEq

/-- DatabaseStorage.getTrip (src/server/routes.ts lines 726-729). -/
def getTrip (st : Store) (id : Nat) : Option Trip :=
  st.trips.find? (fun t => t.id == id)

/-- DatabaseStorage.getUserByUsername (src/server/routes.ts lines 707-710). -/
def getUserByUsername (st : Store) (username : String) : Option User :=
  st.users.find? (fun u => u.username == username)

/-- DatabaseStorage.getTripMembers (src/server/routes.ts lines 972-979). -/
def getTripMembers (st : Store) (tripId : Nat) : List TripMember :=
  st.tripMembers.filter (fun m => m.tripId == tripId)

/-- DatabaseStorage.getPackingItem (src/server/routes.ts lines 872-875). -/
def getPackingItem (st : Store) (id : Nat) : Option PackingItem :=
  st.packingItems.find? (fun i => i.id == id)

/-- DatabaseStorage.getSchedule (src/server/routes.ts lines 799-802). -/
def getSchedule (st : Store) (id : Nat) : Option Schedule :=
  st.schedules.find? (fun s => s.id == id)

/-- DatabaseStorage.getTripsByUser (src/server/routes.ts lines 731-739):
trips whose userId column equals the argument; the ORDER BY startDate DESC
only permutes the rows. -/
def getTripsByUser (st : Store) (userId : Nat) : List Trip :=
  st.trips.filter (fun t => t.userId == userId)

/-- DatabaseStorage.getSharedTrips (src/server/routes.ts lines 741-760):
trip ids of the membership rows for the user, then the trips with those
ids; empty membership short-circuits to the empty list. -/
def getSharedTrips (st : Store) (userId : Nat) : List Trip :=
  let tripIds := (st.tripMembers.filter (fun m => m.userId == userId)).map (fun m => m.tripId)
  if tripIds.isEmpty then []
  else st.trips.filter (fun t => tripIds.contains t.id)

/-- DatabaseStorage.getSchedulesByUser (src/server/routes.ts lines
814-829): schedules of the trips returned by getTripsByUser, with the
empty short-circuit. -/
def getSchedulesByUser (st : Store) (userId : Nat) : List Schedule :=
  let userTrips := getTripsByUser st userId
  if userTrips.isEmpty then []
  else
    let tripIds := userTrips.map (fun t => t.id)
    st.schedules.filter (fun s => tripIds.contains s.tripId)

/-- DatabaseStorage.getPackingItemsByUser (src/server/routes.ts lines
887-902): packing items of the trips returned by getTripsByUser, with the
empty short-circuit. -/
def getPackingItemsByUser (st : Store) (userId : Nat) : List PackingItem :=
  let userTrips := getTripsByUser st userId
  if userTrips.isEmpty then []
  else
    let tripIds := userTrips.map (fun t => t.id)
    st.packingItems.filter (fun i => tripIds.contains i.tripId)

/-- DatabaseStorage.deleteTrip (src/server/routes.ts lines 794-796): a
single DELETE on the trips table and nothing else. -/
def deleteTrip (st : Store) (id : Nat) : Store :=
  { st with trips := st.trips.filter (fun t => !(t.id == id)) }

/-- The decision implemented inline by the read-gated handlers (e.g.
src/server/routes.ts lines 53-61): allowed when the trip's userId is the
requester or some membership row of the trip carries the requester's id. -/
def canRead (userId : Nat) (trip : Trip) (members : List TripMember) : Bool :=
  trip.userId == userId || members.any (fun m => m.userId == userId)

/-- The decision implemented inline by the write-gated handlers (e.g.
src/server/routes.ts lines 176-187): allowed when the trip's userId is the
requester or some membership row of the trip carries the requester's id
with role "editor" or "owner". -/
def canWrite (userId : Nat) (trip : Trip) (members : List TripMember) : Bool :=
  trip.userId == userId ||
    members.any (fun m => m.userId == userId && (m.role == "editor" || m.role == "owner"))

/-- Handler of GET /api/trips/:id (src/server/routes.ts lines 44-67). -/
def getTripHandler (st : Store) (userId tripId : Nat) : HttpReply Trip :=
  match getTrip st tripId with
  | none => .err 404 "Trip not found"
  | some trip =>
    if trip.userId ≠ userId then
      if !((getTripMembers st tripId).any (fun m => m.userId == userId)) then
        .err 403 "Not authorized to view this trip"
      else .ok trip
    else .ok trip

/-- Body of POST /api/trips/:id/schedules after insertTripSchema parsing
(src/shared/schema.ts lines 96-99): the schedules columns minus id, with
the day already coerced to a date; the handler overrides tripId from the
path. -/
structure InsertSchedule where
  tripId : Nat
  day : Int
  title : String
  time : Option String
  location : Option String
  description : Option String
  deriving Repr, DecidableEq

/-- DatabaseStorage.createSchedule (src/server/routes.ts lines 843-854):
insert with the next autoincrement id and return the inserted row. -/
def createSchedule (st : Store) (body : InsertSchedule) (tripId : Nat) : Schedule × Store :=
  let s : Schedule :=
    { id := st.nextScheduleId, tripId := tripId, day := body.day, title := body.title,
      time := body.time, location := body.location, description := body.description }
  (s, { st with schedules := st.schedules ++ [s], nextScheduleId := st.nextScheduleId + 1 })

/-- Handler of POST /api/trips/:id/schedules (src/server/routes.ts lines
167-201). -/
def postScheduleHandler (st : Store) (userId tripId : Nat) (body : InsertSchedule) :
    HttpReply Schedule × Store :=
  match getTrip st tripId with
  | none => (.err 404 "Trip not found", st)
  | some trip =>
    if trip.userId ≠ userId ∧
        !((getTripMembers st tripId).any
          (fun m => m.userId == userId && (m.role == "editor" || m.role == "owner"))) then
      (.err 403 "Not authorized to add schedules to this trip", st)
    else
      let (s, st1) := createSchedule st body tripId
      (.ok s, st1)

/-- The merged update object of PATCH /api/packing-items/:id
(src/server/routes.ts lines 374-378): the optional insertPackingItemSchema
fields plus a separately forwarded isPacked; `none` means the field is
absent from the request body.  The nested Option of categoryId records
that the column itself is nullable. -/
structure ItemPatch where
  tripId : Option Nat
  categoryId : Option (Option Nat)
  name : Option String
  quantity : Option Nat
  isPacked : Option Bool
  deriving Repr, DecidableEq

/-- Application of an ItemPatch to a row, as the drizzle `set` of
DatabaseStorage.updatePackingItem does column-wise. -/
def applyItemPatch (p : ItemPatch) (i : PackingItem) : PackingItem :=
  { i with tripId := p.tripId.getD i.tripId,
           categoryId := p.categoryId.getD i.categoryId,
           name := p.name.getD i.name,
           quantity := p.quantity.getD i.quantity,
           isPacked := p.isPacked.getD i.isPacked }

/-- DatabaseStorage.updatePackingItem (src/server/routes.ts lines
918-922): UPDATE the matching rows, then re-select the row by id. -/
def updatePackingItem (st : Store) (id : Nat) (p : ItemPatch) : Option PackingItem × Store :=
  let st1 := { st with
    packingItems := st.packingItems.map (fun i => if i.id == id then applyItemPatch p i else i) }
  (getPackingItem st1 id, st1)

/-- Handler of PATCH /api/packing-items/:id (src/server/routes.ts lines
347-388). -/
def patchPackingItemHandler (st : Store) (userId itemId : Nat) (p : ItemPatch) :
    HttpReply (Option PackingItem) × Store :=
  match getPackingItem st itemId with
  | none => (.err 404 "Packing item not found", st)
  | some item =>
    match getTrip st item.tripId with
    | none => (.err 404 "Trip not found", st)
    | some trip =>
      if trip.userId ≠ userId ∧
          !((getTripMembers st trip.id).any
            (fun m => m.userId == userId && (m.role == "editor" || m.role == "owner"))) then
        (.err 403 "Not authorized to update this packing item", st)
      else
        let (updated, st1) := updatePackingItem st itemId p
        (.ok updated, st1)

/-- The update object of PATCH /api/trips/:id; the share handler only ever
sends `{ isShared: true }`, the general handler may send any subset of the
insertTripSchema columns. -/
structure TripPatch where
  name : Option String
  destination : Option String
  startDate : Option Int
  endDate : Option Int
  imageUrl : Option (Option String)
  description : Option (Option String)
  isShared : Option Bool
  deriving Repr, DecidableEq

/-- The empty trip patch, for building concrete patches by record update. -/
def TripPatch.none : TripPatch :=
  { name := Option.none, destination := Option.none, startDate := Option.none,
    endDate := Option.none, imageUrl := Option.none, description := Option.none,
    isShared := Option.none }

/-- Application of a TripPatch to a row, as the drizzle `set` of
DatabaseStorage.updateTrip does column-wise. -/
def applyTripPatch (p : TripPatch) (t : Trip) : Trip :=
  { t with name := p.name.getD t.name,
           destination := p.destination.getD t.destination,
           startDate := p.startDate.getD t.startDate,
           endDate := p.endDate.getD t.endDate,
           imageUrl := p.imageUrl.getD t.imageUrl,
           description := p.description.getD t.description,
           isShared := p.isShared.getD t.isShared }

/-- DatabaseStorage.updateTrip (src/server/routes.ts lines 779-792): UPDATE
the matching rows of the trips table. -/
def updateTrip (st : Store) (id : Nat) (p : TripPatch) : Store :=
  { st with trips := st.trips.map (fun t => if t.id == id then applyTripPatch p t else t) }

/-- DatabaseStorage.addTripMember (src/server/routes.ts lines 981-986):
insert a membership row with the next autoincrement id and return the
inserted row. -/
def addTripMember (st : Store) (tripId userId : Nat) (role : String) : TripMember × Store :=
  let m : TripMember := { id := st.nextMemberId, tripId := tripId, userId := userId, role := role }
  (m, { st with tripMembers := st.tripMembers ++ [m], nextMemberId := st.nextMemberId + 1 })

/-- Handler of POST /api/trips/:id/share (src/server/routes.ts lines
490-544).  The request body is `{ username, role }`: `username = none` or
`some ""` is the falsy `if (!username)` case, and the destructuring
default `role = "viewer"` fires when role is absent. -/
def shareTripHandler (st : Store) (userId tripId : Nat)
    (username : Option String) (role : Option String) : HttpReply TripMember × Store :=
  match getTrip st tripId with
  | Option.none => (.err 404 "Trip not found", st)
  | some trip =>
    if trip.userId ≠ userId then
      (.err 403 "Not authorized to share this trip", st)
    else
      let roleVal := role.getD "viewer"
      match username with
      | Option.none => (.err 400 "Username is required", st)
      | some uname =>
        if uname = "" then (.err 400 "Username is required", st)
        else
          match getUserByUsername st uname with
          | Option.none => (.err 404 "User not found", st)
          | some shareWithUser =>
            if shareWithUser.id = userId then
              (.err 400 "Cannot share trip with yourself", st)
            else
              let members := getTripMembers st tripId
              if members.any (fun m => m.userId == shareWithUser.id) then
                (.err 400 "Trip already shared with this user", st)
              else
                let st1 := if !trip.isShared then
                    updateTrip st tripId { TripPatch.none with isShared := some true }
                  else st
                let (tripMember, st2) := addTripMember st1 tripId shareWithUser.id roleVal
                (.ok tripMember, st2)

/-- The 30-minute freshness window of src/server/weather.ts line 21, in
milliseconds. -/
def cacheTime : Nat := 30 * 60 * 1000

/-- DatabaseStorage.getWeatherCache (src/server/routes.ts lines 1000-1009):
the matching row with the greatest timestamp (ORDER BY timestamp DESC
LIMIT 1; which of several equal-timestamp rows wins is unspecified in SQL,
the model keeps the earliest). -/
def getWeatherCache (st : Store) (location : String) : Option WeatherCacheRow :=
  (st.weatherCache.filter (fun r => r.location == location)).foldl
    (fun acc r => match acc with
      | Option.none => some r
      | some a => if r.timestamp > a.timestamp then some r else some a)
    Option.none

/-- DatabaseStorage.saveWeatherCache (src/server/routes.ts lines
1011-1024): insert a row stamped with the current time. -/
def saveWeatherCache (st : Store) (location : String) (data : WeatherData) (now : Nat) : Store :=
  { st with
    weatherCache := st.weatherCache ++
      [{ id := st.nextCacheId, location := location, data := data, timestamp := now }],
    nextCacheId := st.nextCacheId + 1 }

/-- The placeholder payload of the catch branch of getWeatherForLocation
(src/server/weather.ts lines 62-68). -/
def placeholderWeather (location today : String) : WeatherData :=
  { temperature := 25, condition := "Unknown", location := location,
    date := today, icon := "01d" }

/-- The payload formatting of a successful upstream response
(src/server/weather.ts lines 46-52); `today` is the current date string. -/
def formatUpstream (u : Upstream) (today : String) : WeatherData :=
  { temperature := u.temp, condition := u.condition, location := u.name,
    date := today, icon := u.icon }

/-- The fetch-and-cache path of getWeatherForLocation (src/server/weather.ts
lines 28-57 on success, lines 58-69 on failure): call upstream; on success
format, cache under the original location argument and return; on failure
return the placeholder without touching the store.  The Bool records that
the upstream provider was called. -/
def fetchAndCache (st : Store) (now : Nat) (today : String) (up : Option Upstream)
    (location : String) : WeatherData × Store × Bool :=
  match up with
  | some u =>
    let wd := formatUpstream u today
    (wd, saveWeatherCache st location wd now, true)
  | Option.none => (placeholderWeather location today, st, true)

/-- getWeatherForLocation (src/server/weather.ts lines 17-70): serve the
cached row when it is younger than cacheTime, otherwise fetch and cache. -/
def getWeatherForLocation (st : Store) (now : Nat) (today : String) (up : Option Upstream)
    (location : String) : WeatherData × Store × Bool :=
  match getWeatherCache st location with
  | some cached =>
    if now - cached.timestamp < cacheTime then (cached.data, st, false)
    else fetchAndCache st now today up location
  | Option.none => fetchAndCache st now today up location

/-- The insertion-ordered map update of a JavaScript `Map.set` on an
association list: overwrite in place when the key exists, append
otherwise. -/
def mapSet (m : List (String × ForecastItem)) (k : String) (v : ForecastItem) :
    List (String × ForecastItem) :=
  if m.any (fun p => p.1 == k) then
    m.map (fun p => if p.1 == k then (k, v) else p)
  else m ++ [(k, v)]

/-- getForecast (src/server/weather.ts lines 109-160): group the 3-hour
entries by date, keeping the noon entry when one appears and otherwise the
first entry of the day, then format one payload per day; on upstream
failure the catch branch returns the empty list. -/
def getForecast (up : Option ForecastUpstream) (location : String) : List WeatherData :=
  match up with
  | Option.none => []
  | some f =>
    let byDay := f.list.foldl
      (fun m item =>
        if item.dtTime == "12:00:00" || !(m.any (fun p => p.1 == item.dtDate)) then
          mapSet m item.dtDate item
        else m)
      []
    byDay.map (fun p =>
      { temperature := p.2.temp, condition := p.2.condition, location := f.cityName,
        date := p.1, icon := p.2.icon })

/-- Stable insertion of a trip into a list ascending by startDate, placing
it before the first strictly later trip, as the comparator of
src/server/weather.ts lines 82-84 sorts. -/
def insertTripByStart (t : Trip) : List Trip → List Trip
  | [] => [t]
  | u :: us => if t.startDate ≤ u.startDate then t :: u :: us else u :: insertTripByStart t us

/-- The ascending-by-startDate sort of src/server/weather.ts lines 82-84. -/
def sortTripsByStart (l : List Trip) : List Trip :=
  l.foldr insertTripByStart []

/-- getNextTripWeather (src/server/weather.ts lines 75-104): the user's
owned trips, sorted ascending by start date; the first whose start date
(normalised to midnight, here a day number) is today or later supplies the
destination for getWeatherForLocation; otherwise null.  `todayDay` is
today's day number, `now`, `today` and `up` are passed through to the
weather lookup. -/
def getNextTripWeather (st : Store) (userId : Nat) (now : Nat) (today : String)
    (todayDay : Int) (up : Option Upstream) : Option (WeatherData × Store × Bool) :=
  let trips := getTripsByUser st userId
  if trips.isEmpty then Option.none
  else
    match (sortTripsByStart trips).find? (fun t => todayDay ≤ t.startDate) with
    | Option.none => Option.none
    | some nextTrip => some (getWeatherForLocation st now today up nextTrip.destination)

/-- Handler of GET /api/weather/next-trip (src/server/routes.ts lines
557-567): a null from getNextTripWeather becomes 404 "No upcoming trips
found". -/
def nextTripHandler (st : Store) (userId : Nat) (now : Nat) (today : String)
    (todayDay : Int) (up : Option Upstream) : HttpReply (WeatherData × Store × Bool) :=
  match getNextTripWeather st userId now today todayDay up with
  | Option.none => .err 404 "No upcoming trips found"
  | some w => .ok w

/-- One segment of an Express route pattern: a literal, or a named
parameter, which matches any single path segment. -/
inductive Seg where
  | lit (s : String)
  | param
  deriving Repr, DecidableEq

/-- Whether a pattern segment matches a path segment. -/
def matchSeg : Seg → String → Bool
  | .lit s, x => s == x
  | .param, _ => true

/-- Whether an Express route pattern matches a path. -/
def routeMatches (ps : List Seg) (xs : List String) : Bool :=
  ps.length == xs.length && (List.zip ps xs).all (fun pa => matchSeg pa.1 pa.2)

/-- Which of the two GET /api/weather handlers a request is dispatched
to. -/
inductive WeatherEndpoint where
  | byLocation (location : String)
  | nextTripRoute
  deriving Repr, DecidableEq

/-- Express dispatch over the weather routes in their registration order in
src/server/routes.ts: "/api/weather/:location" at line 547 before
"/api/weather/next-trip" at line 557; the first matching pattern wins and
a :param captures the corresponding path segment. -/
def dispatchWeather (path : List String) : Option WeatherEndpoint :=
  if routeMatches [.lit "api", .lit "weather", .param] path then
    some (.byLocation (path.getD 2 ""))
  else if routeMatches [.lit "api", .lit "weather", .lit "next-trip"] path then
    some .nextTripRoute
  else Option.none

/-- The membership row the share handler inserts on success: the next
autoincrement id, the path tripId, the target user and the possibly
defaulted role. -/
def shareMember (st : Store) (tripId : Nat) (target : User) (role : Option String) : TripMember :=
  { id := st.nextMemberId, tripId := tripId, userId := target.id, role := role.getD "viewer" }

/-- The store produced by the success branch of the share handler: the
isShared flag set when it was false, then the membership row appended. -/
def shareSuccessStore (st : Store) (tripId : Nat) (target : User) (role : Option String)
    (trip : Trip) : Store :=
  let st1 := if !trip.isShared then
      updateTrip st tripId { TripPatch.none with isShared := some true }
    else st
  { st1 with tripMembers := st1.tripMembers ++ [shareMember st tripId target role],
             nextMemberId := st.nextMemberId + 1 }

/-! Concrete fixtures used by the witness and counterexample theorems. -/

/-- Fixture: the owner of the fixture trip. -/
def userAlice : User :=
  { id := 1, username := "alice", password := "pw", email := "alice@x", name := "Alice" }

/-- Fixture: a second user, shared with as a viewer where needed. -/
def userBob : User :=
  { id := 2, username := "bob", password := "pw", email := "bob@x", name := "Bob" }

/-- Fixture: a trip owned by Alice, not yet shared. -/
def tripParis : Trip :=
  { id := 10, userId := 1, name := "Paris Trip", destination := "Paris",
    startDate := 100, endDate := 106, imageUrl := Option.none,
    description := Option.none, isShared := false }

/-- Fixture: Bob as a viewer member of the Paris trip. -/
def memberBobViewer : TripMember := { id := 20, tripId := 10, userId := 2, role := "viewer" }

/-- Fixture: a schedule of the Paris trip. -/
def schedLouvre : Schedule :=
  { id := 30, tripId := 10, day := 101, title := "Louvre", time := Option.none,
    location := Option.none, description := Option.none }

/-- Fixture: a packing item of the Paris trip. -/
def itemSocks : PackingItem :=
  { id := 40, tripId := 10, categoryId := Option.none, name := "Socks",
    isPacked := false, quantity := 3 }

/-- Fixture: a tag of the Paris trip. -/
def tagBeach : TripTag := { id := 50, tripId := 10, name := "beach", color := "blue" }

/-- Fixture store: Alice owns the Paris trip with one schedule, one packing
item and one tag; Bob is a viewer member. -/
def storeShared : Store :=
  { users := [userAlice, userBob], trips := [tripParis], schedules := [schedLouvre],
    packingItems := [itemSocks], tripTags := [tagBeach], tripMembers := [memberBobViewer],
    weatherCache := [], nextMemberId := 21, nextScheduleId := 31, nextCacheId := 60 }

/-- Fixture store: as storeShared but with no membership rows, so the Paris
trip is not yet shared with anyone. -/
def storeUnshared : Store :=
  { storeShared with tripMembers := [] }

/-- Fixture: a trip owned by Bob that Alice is only a member of. -/
def tripRome : Trip :=
  { id := 11, userId := 2, name := "Rome Trip", destination := "Rome",
    startDate := 200, endDate := 205, imageUrl := Option.none,
    description := Option.none, isShared := true }

/-- Fixture: Alice as a viewer member of the Rome trip. -/
def memberAliceViewer : TripMember := { id := 22, tripId := 11, userId := 1, role := "viewer" }

/-- Fixture: a schedule of the Rome trip. -/
def schedColosseum : Schedule :=
  { id := 31, tripId := 11, day := 201, title := "Colosseum", time := Option.none,
    location := Option.none, description := Option.none }

/-- Fixture: a packing item of the Rome trip. -/
def itemHat : PackingItem :=
  { id := 41, tripId := 11, categoryId := Option.none, name := "Hat",
    isPacked := false, quantity := 1 }

/-- Fixture store: Bob owns the Rome trip with a schedule and a packing
item; Alice has no owned trip there and is only a member of Rome. -/
def storeMemberOnly : Store :=
  { users := [userAlice, userBob], trips := [tripRome], schedules := [schedColosseum],
    packingItems := [itemHat], tripTags := [], tripMembers := [memberAliceViewer],
    weatherCache := [], nextMemberId := 23, nextScheduleId := 32, nextCacheId := 60 }

/-- Fixture: a trip of user 5 that started in the past relative to the
fixture today of day 200. -/
def tripPast : Trip :=
  { id := 12, userId := 5, name := "Old Trip", destination := "Oslo",
    startDate := 100, endDate := 101, imageUrl := Option.none,
    description := Option.none, isShared := false }

/-- Fixture store: user 5 owns only the past trip. -/
def storePast : Store :=
  { users := [], trips := [tripPast], schedules := [], packingItems := [], tripTags := [],
    tripMembers := [], weatherCache := [], nextMemberId := 0, nextScheduleId := 0,
    nextCacheId := 0 }

/-- Membership in the any-check of the handlers, phrased as existence. -/
theorem any_userId_eq (ms : List TripMember) (uid : Nat) :
    ms.any (fun m => m.userId == uid) = true ↔ ∃ m ∈ ms, m.userId = uid := by
  simp [List.any_eq_true]

/-- C1: for every user, trip and member list, the read decision is true
exactly when the user owns the trip or appears among its members with any
role, and GET /api/trips/:id returns the trip when it is true and a 403
authorization error when it is false. -/
theorem canRead_iff_and_getTripHandler (st : Store) (userId tripId : Nat) (trip : Trip)
    (hTrip : getTrip st tripId = some trip) :
    (canRead userId trip (getTripMembers st tripId) = true ↔
      trip.userId = userId ∨ ∃ m ∈ getTripMembers st tripId, m.userId = userId)
    ∧ (canRead userId trip (getTripMembers st tripId) = true →
        getTripHandler st userId tripId = .ok trip)
    ∧ (canRead userId trip (getTripMembers st tripId) = false →
        getTripHandler st userId tripId = .err 403 "Not authorized to view this trip") := by
  refine ⟨by simp [canRead, List.any_eq_true], ?_, ?_⟩
  · intro h
    simp only [canRead, Bool.or_eq_true, beq_iff_eq] at h
    simp only [getTripHandler, hTrip]
    rcases h with h | h
    · simp [h]
    · by_cases ho : trip.userId = userId
      · simp [ho]
      · simp [ho, h]
  · intro h
    simp only [canRead, Bool.or_eq_false_iff, beq_eq_false_iff_ne, ne_eq] at h
    simp only [getTripHandler, hTrip]
    simp [h.1, h.2]

/-- Witness for C1 at the fixture store: Bob is a viewer member, so the
read decision holds for him and the handler returns the trip. -/
theorem canRead_iff_and_getTripHandler_witness :
    (canRead 2 tripParis (getTripMembers storeShared 10) = true ↔
      tripParis.userId = 2 ∨ ∃ m ∈ getTripMembers storeShared 10, m.userId = 2)
    ∧ (canRead 2 tripParis (getTripMembers storeShared 10) = true →
        getTripHandler storeShared 2 10 = .ok tripParis)
    ∧ (canRead 2 tripParis (getTripMembers storeShared 10) = false →
        getTripHandler storeShared 2 10 = .err 403 "Not authorized to view this trip") :=
  canRead_iff_and_getTripHandler storeShared 2 10 tripParis (by decide)

/-- find? by id commutes with mapping an id-preserving function. -/
theorem find?_id_map (l : List Trip) (g : Trip → Trip) (hg : ∀ t, (g t).id = t.id) (tid : Nat) :
    (l.map g).find? (fun t => t.id == tid) = (l.find? (fun t => t.id == tid)).map g := by
  induction l with
  | nil => rfl
  | cons x xs ih =>
    rw [List.map_cons, List.find?_cons, List.find?_cons, hg x]
    cases hx : (x.id == tid) <;> simp [ih]

/-- Under the share preconditions of src/server/routes.ts lines 495-526
(trip exists and is owned by the caller, username present and resolving to
a user distinct from the caller who is not yet a member), the share
handler returns the inserted membership row and the success store. -/
theorem shareTrip_success_eq (st : Store) (userId tripId : Nat) (un : String)
    (role : Option String) (trip : Trip) (target : User)
    (hTrip : getTrip st tripId = some trip)
    (hOwner : trip.userId = userId)
    (hun : un ≠ "")
    (hUser : getUserByUsername st un = some target)
    (hSelf : target.id ≠ userId)
    (hNotMember : ∀ m ∈ getTripMembers st tripId, m.userId ≠ target.id) :
    shareTripHandler st userId tripId (some un) role =
      (.ok (shareMember st tripId target role), shareSuccessStore st tripId target role trip) := by
  have hany : (getTripMembers st tripId).any (fun m => m.userId == target.id) = false := by
    simp only [List.any_eq_false]
    intro m hm
    simpa using hNotMember m hm
  simp only [shareTripHandler, hTrip, hUser]
  cases hb : trip.isShared <;>
    simp [hOwner, hun, hSelf, hany, hb, shareSuccessStore, shareMember, addTripMember,
      updateTrip]

/-- A found trip carries the id it was looked up by. -/
theorem getTrip_id (st : Store) (tripId : Nat) (trip : Trip)
    (h : getTrip st tripId = some trip) : trip.id = tripId := by
  have := List.find?_some h
  simpa using this

/-- Updating a trip row rewrites exactly the looked-up row. -/
theorem getTrip_updateTrip_self (st : Store) (tripId : Nat) (p : TripPatch) (trip : Trip)
    (h : getTrip st tripId = some trip) :
    getTrip (updateTrip st tripId p) tripId = some (applyTripPatch p trip) := by
  have htid : (trip.id == tripId) = true := by
    simpa using getTrip_id st tripId trip h
  unfold getTrip updateTrip at *
  rw [find?_id_map _ _
    (fun t => by by_cases hc : (t.id == tripId) = true <;> simp [hc, applyTripPatch]) tripId]
  rw [h]
  have heq : trip.id = tripId := by simpa using htid
  simp [heq]

/-- The user table is untouched by the success branch of the share
handler. -/
theorem shareSuccessStore_users (st : Store) (tripId : Nat) (target : User)
    (role : Option String) (trip : Trip) :
    (shareSuccessStore st tripId target role trip).users = st.users := by
  unfold shareSuccessStore
  cases trip.isShared <;> rfl

/-- The success branch of the share handler appends exactly one membership
row. -/
theorem shareSuccessStore_members (st : Store) (tripId : Nat) (target : User)
    (role : Option String) (trip : Trip) :
    (shareSuccessStore st tripId target role trip).tripMembers =
      st.tripMembers ++ [shareMember st tripId target role] := by
  unfold shareSuccessStore
  cases trip.isShared <;> rfl

/-- After a successful share of an existing trip, the trip still resolves,
with the same owner and with isShared true. -/
theorem shareSuccessStore_getTrip (st : Store) (tripId : Nat) (target : User)
    (role : Option String) (trip : Trip)
    (h : getTrip st tripId = some trip) :
    ∃ t2, getTrip (shareSuccessStore st tripId target role trip) tripId = some t2 ∧
      t2.userId = trip.userId ∧ t2.isShared = true := by
  unfold shareSuccessStore
  cases hb : trip.isShared
  · refine ⟨applyTripPatch { TripPatch.none with isShared := some true } trip, ?_, ?_, ?_⟩
    · simpa using getTrip_updateTrip_self st tripId _ trip h
    · rfl
    · rfl
  · exact ⟨trip, by simpa using h, rfl, hb⟩

/-- C2: for every user, trip and member list, the write decision is true
exactly when the user owns the trip or appears among its members with role
editor or owner; when it is false, POST /api/trips/:id/schedules and
PATCH /api/packing-items/:id both answer 403 and leave the store
unchanged; and a non-owner all of whose membership rows carry role
"viewer" is denied. -/
theorem canWrite_iff_and_write_handlers
    (st : Store) (userId tripId itemId : Nat) (trip : Trip) (item : PackingItem)
    (body : InsertSchedule) (p : ItemPatch)
    (hTrip : getTrip st tripId = some trip)
    (hItem : getPackingItem st itemId = some item)
    (hItemTrip : item.tripId = tripId) :
    (canWrite userId trip (getTripMembers st tripId) = true ↔
      trip.userId = userId ∨
        ∃ m ∈ getTripMembers st tripId,
          m.userId = userId ∧ (m.role = "editor" ∨ m.role = "owner"))
    ∧ (canWrite userId trip (getTripMembers st tripId) = false →
        postScheduleHandler st userId tripId body =
          (.err 403 "Not authorized to add schedules to this trip", st)
        ∧ patchPackingItemHandler st userId itemId p =
          (.err 403 "Not authorized to update this packing item", st))
    ∧ (trip.userId ≠ userId →
        (∀ m ∈ getTripMembers st tripId, m.userId = userId → m.role = "viewer") →
        canWrite userId trip (getTripMembers st tripId) = false) := by
  have htid : trip.id = tripId := getTrip_id st tripId trip hTrip
  refine ⟨?_, ?_, ?_⟩
  · simp [canWrite, List.any_eq_true, and_assoc]
  · intro h
    simp only [canWrite, Bool.or_eq_false_iff, beq_eq_false_iff_ne, ne_eq] at h
    constructor
    · simp only [postScheduleHandler, hTrip]
      simp [h.1, h.2]
    · simp only [patchPackingItemHandler, hItem, hItemTrip, hTrip, htid]
      simp [h.1, h.2]
  · intro hne hviewer
    simp only [canWrite, Bool.or_eq_false_iff]
    refine ⟨by simpa using hne, ?_⟩
    simp only [List.any_eq_false, Bool.and_eq_true, not_and, beq_iff_eq, Bool.or_eq_true]
    intro m hm hmu
    have := hviewer m hm (by simpa using hmu)
    simp [this]

/-- Witness for C2 at the fixture store: Bob is only a viewer member of
the Paris trip, so the write decision is false and both write handlers
deny him. -/
theorem canWrite_iff_and_write_handlers_witness :
    ((canWrite 2 tripParis (getTripMembers storeShared 10) = true ↔
      tripParis.userId = 2 ∨
        ∃ m ∈ getTripMembers storeShared 10,
          m.userId = 2 ∧ (m.role = "editor" ∨ m.role = "owner"))
    ∧ (canWrite 2 tripParis (getTripMembers storeShared 10) = false →
        postScheduleHandler storeShared 2 10
            { tripId := 10, day := 101, title := "Louvre",
              time := Option.none, location := Option.none, description := Option.none } =
          (.err 403 "Not authorized to add schedules to this trip", storeShared)
        ∧ patchPackingItemHandler storeShared 2 40
            { tripId := Option.none, categoryId := Option.none, name := Option.none,
              quantity := Option.none, isPacked := some true } =
          (.err 403 "Not authorized to update this packing item", storeShared))
    ∧ (tripParis.userId ≠ 2 →
        (∀ m ∈ getTripMembers storeShared 10, m.userId = 2 → m.role = "viewer") →
        canWrite 2 tripParis (getTripMembers storeShared 10) = false))
    ∧ canWrite 2 tripParis (getTripMembers storeShared 10) = false :=
  ⟨canWrite_iff_and_write_handlers storeShared 2 10 40 tripParis itemSocks
      { tripId := 10, day := 101, title := "Louvre",
        time := Option.none, location := Option.none, description := Option.none }
      { tripId := Option.none, categoryId := Option.none, name := Option.none,
        quantity := Option.none, isPacked := some true }
      (by decide) (by decide) (by decide),
   by decide⟩


/-- C3: under the share preconditions, the first call by the owner for a
fresh target succeeds, returning the membership row whose role is the
supplied one or "viewer" when none was supplied; the second call for the
same trip and target fails with the 400 Conflict message, returns the
store unchanged, and the target has exactly one membership row for the
trip. -/
theorem shareTrip_first_ok_second_conflict
    (st : Store) (userId tripId : Nat) (un : String) (role role2 : Option String)
    (trip : Trip) (target : User)
    (hTrip : getTrip st tripId = some trip)
    (hOwner : trip.userId = userId)
    (hun : un ≠ "")
    (hUser : getUserByUsername st un = some target)
    (hSelf : target.id ≠ userId)
    (hNotMember : ∀ m ∈ getTripMembers st tripId, m.userId ≠ target.id) :
    (shareTripHandler st userId tripId (some un) role).1 =
      .ok { id := st.nextMemberId, tripId := tripId, userId := target.id,
            role := role.getD "viewer" }
    ∧ shareTripHandler ((shareTripHandler st userId tripId (some un) role).2)
        userId tripId (some un) role2 =
        (.err 400 "Trip already shared with this user",
         (shareTripHandler st userId tripId (some un) role).2)
    ∧ ((getTripMembers ((shareTripHandler st userId tripId (some un) role).2) tripId).filter
        (fun m => m.userId == target.id)).length = 1 := by
  have hfirst := shareTrip_success_eq st userId tripId un role trip target
    hTrip hOwner hun hUser hSelf hNotMember
  rw [hfirst]
  obtain ⟨t2, hget2, huid2, hsh2⟩ :=
    shareSuccessStore_getTrip st tripId target role trip hTrip
  have husers : getUserByUsername (shareSuccessStore st tripId target role trip) un =
      some target := by
    unfold getUserByUsername
    rw [shareSuccessStore_users]
    exact hUser
  have hmem2 : getTripMembers (shareSuccessStore st tripId target role trip) tripId =
      getTripMembers st tripId ++ [shareMember st tripId target role] := by
    unfold getTripMembers
    rw [shareSuccessStore_members, List.filter_append]
    simp [shareMember]
  refine ⟨rfl, ?_, ?_⟩
  · simp only [shareTripHandler, hget2, husers]
    have howner2 : ¬ t2.userId ≠ userId := by simp [huid2, hOwner]
    have hany2 : (getTripMembers (shareSuccessStore st tripId target role trip) tripId).any
        (fun m => m.userId == target.id) = true := by
      rw [hmem2]
      simp [shareMember]
    simp [howner2, hun, hSelf, hany2]
  · rw [hmem2, List.filter_append]
    have hold : (getTripMembers st tripId).filter (fun m => m.userId == target.id) = [] := by
      rw [List.filter_eq_nil_iff]
      intro m hm
      simpa using hNotMember m hm
    rw [hold]
    simp [shareMember]

/-- Witness for C3 at the unshared fixture store: Alice shares the Paris
trip with Bob with no role given; the row gets role "viewer" and a repeat
share conflicts without changing the store. -/
theorem shareTrip_first_ok_second_conflict_witness :
    (shareTripHandler storeUnshared 1 10 (some "bob") Option.none).1 =
      .ok { id := 21, tripId := 10, userId := 2, role := "viewer" }
    ∧ shareTripHandler ((shareTripHandler storeUnshared 1 10 (some "bob") Option.none).2)
        1 10 (some "bob") (some "editor") =
        (.err 400 "Trip already shared with this user",
         (shareTripHandler storeUnshared 1 10 (some "bob") Option.none).2)
    ∧ ((getTripMembers ((shareTripHandler storeUnshared 1 10 (some "bob") Option.none).2)
          10).filter (fun m => m.userId == 2)).length = 1 :=
  shareTrip_first_ok_second_conflict storeUnshared 1 10 "bob" Option.none (some "editor")
    tripParis userBob (by decide) (by decide) (by decide) (by decide) (by decide)
    (by decide)

/-- C4: the share workflow never lowers isShared: whatever branch the
handler takes, a successful call leaves the trip resolvable with isShared
true, and a trip whose isShared is already true still reports true
afterwards. -/
theorem shareTrip_isShared_monotone
    (st : Store) (userId tripId : Nat) (username : Option String) (role : Option String)
    (trip : Trip) (hTrip : getTrip st tripId = some trip) :
    (∀ m, (shareTripHandler st userId tripId username role).1 = .ok m →
      ∃ t2, getTrip (shareTripHandler st userId tripId username role).2 tripId = some t2 ∧
        t2.isShared = true)
    ∧ (trip.isShared = true →
      ∃ t2, getTrip (shareTripHandler st userId tripId username role).2 tripId = some t2 ∧
        t2.isShared = true) := by
  by_cases h1 : trip.userId ≠ userId
  · have hexpr : shareTripHandler st userId tripId username role =
        (.err 403 "Not authorized to share this trip", st) := by
      simp [shareTripHandler, hTrip, h1]
    rw [hexpr]
    exact ⟨fun m hm => by simp at hm, fun hsh => ⟨trip, hTrip, hsh⟩⟩
  · have howner : trip.userId = userId := not_not.mp h1
    cases username with
    | none =>
      have hexpr : shareTripHandler st userId tripId Option.none role =
          (.err 400 "Username is required", st) := by
        simp [shareTripHandler, hTrip, h1]
      rw [hexpr]
      exact ⟨fun m hm => by simp at hm, fun hsh => ⟨trip, hTrip, hsh⟩⟩
    | some un =>
      by_cases h2 : un = ""
      · have hexpr : shareTripHandler st userId tripId (some un) role =
            (.err 400 "Username is required", st) := by
          simp [shareTripHandler, hTrip, h1, h2]
        rw [hexpr]
        exact ⟨fun m hm => by simp at hm, fun hsh => ⟨trip, hTrip, hsh⟩⟩
      · cases hu : getUserByUsername st un with
        | none =>
          have hexpr : shareTripHandler st userId tripId (some un) role =
              (.err 404 "User not found", st) := by
            simp [shareTripHandler, hTrip, h1, h2, hu]
          rw [hexpr]
          exact ⟨fun m hm => by simp at hm, fun hsh => ⟨trip, hTrip, hsh⟩⟩
        | some target =>
          by_cases h3 : target.id = userId
          · have hexpr : shareTripHandler st userId tripId (some un) role =
                (.err 400 "Cannot share trip with yourself", st) := by
              simp [shareTripHandler, hTrip, h1, h2, hu, h3]
            rw [hexpr]
            exact ⟨fun m hm => by simp at hm, fun hsh => ⟨trip, hTrip, hsh⟩⟩
          · by_cases h4 : (getTripMembers st tripId).any
                (fun m => m.userId == target.id) = true
            · have hexpr : shareTripHandler st userId tripId (some un) role =
                  (.err 400 "Trip already shared with this user", st) := by
                simp [shareTripHandler, hTrip, h1, h2, hu, h3, h4]
              rw [hexpr]
              exact ⟨fun m hm => by simp at hm, fun hsh => ⟨trip, hTrip, hsh⟩⟩
            · have hnm : ∀ m ∈ getTripMembers st tripId, m.userId ≠ target.id := by
                have h4f : (getTripMembers st tripId).any
                    (fun m => m.userId == target.id) = false := by
                  revert h4
                  cases (getTripMembers st tripId).any (fun m => m.userId == target.id) <;>
                    simp
                intro m hm
                have := (List.any_eq_false.mp h4f) m hm
                simpa using this
              have hsucc := shareTrip_success_eq st userId tripId un role trip target
                hTrip howner h2 hu h3 hnm
              rw [hsucc]
              obtain ⟨t2, hg, _, hsh2⟩ :=
                shareSuccessStore_getTrip st tripId target role trip hTrip
              exact ⟨fun m _ => ⟨t2, hg, hsh2⟩, fun _ => ⟨t2, hg, hsh2⟩⟩

/-- Witness for C4 at the unshared fixture store: sharing with Bob
succeeds, and the trip afterwards reports isShared true. -/
theorem shareTrip_isShared_monotone_witness :
    (∀ m, (shareTripHandler storeUnshared 1 10 (some "bob") Option.none).1 = .ok m →
      ∃ t2, getTrip (shareTripHandler storeUnshared 1 10 (some "bob") Option.none).2 10 =
          some t2 ∧ t2.isShared = true)
    ∧ (tripParis.isShared = true →
      ∃ t2, getTrip (shareTripHandler storeUnshared 1 10 (some "bob") Option.none).2 10 =
          some t2 ∧ t2.isShared = true) :=
  shareTrip_isShared_monotone storeUnshared 1 10 (some "bob") Option.none tripParis
    (by decide)

/-- Counterexample for C5: the share handler performs no validation of the
role field, so a request carrying role "owner" succeeds and creates a
membership row whose role is "owner", which is neither "viewer" nor
"editor". -/
theorem shareTrip_role_owner_created :
    (shareTripHandler storeUnshared 1 10 (some "bob") (some "owner")).1 =
      .ok { id := 21, tripId := 10, userId := 2, role := "owner" }
    ∧ (getTripMembers ((shareTripHandler storeUnshared 1 10 (some "bob")
          (some "owner")).2) 10).filter (fun m => m.role == "owner") =
        [{ id := 21, tripId := 10, userId := 2, role := "owner" }]
    ∧ ("owner" ≠ "viewer" ∧ "owner" ≠ "editor") := by
  decide

/-- C5 as amended: on a successful share, the created membership row
stores exactly the caller-supplied role string, whatever it is, and only
defaults to "viewer" when no role was supplied; no validation restricts it
to viewer or editor. -/
theorem shareTrip_role_stored_verbatim
    (st : Store) (userId tripId : Nat) (un : String) (role : Option String)
    (trip : Trip) (target : User)
    (hTrip : getTrip st tripId = some trip)
    (hOwner : trip.userId = userId)
    (hun : un ≠ "")
    (hUser : getUserByUsername st un = some target)
    (hSelf : target.id ≠ userId)
    (hNotMember : ∀ m ∈ getTripMembers st tripId, m.userId ≠ target.id) :
    (shareTripHandler st userId tripId (some un) role).1 =
      .ok (shareMember st tripId target role)
    ∧ (shareMember st tripId target role).role = role.getD "viewer" := by
  have h := shareTrip_success_eq st userId tripId un role trip target
    hTrip hOwner hun hUser hSelf hNotMember
  exact ⟨by rw [h], rfl⟩

/-- Witness for the amended C5: Alice shares with Bob supplying role
"editor"; the stored role is exactly "editor". -/
theorem shareTrip_role_stored_verbatim_witness :
    (shareTripHandler storeUnshared 1 10 (some "bob") (some "editor")).1 =
      .ok (shareMember storeUnshared 10 userBob (some "editor"))
    ∧ (shareMember storeUnshared 10 userBob (some "editor")).role =
        (some "editor").getD "viewer" :=
  shareTrip_role_stored_verbatim storeUnshared 1 10 "bob" (some "editor") tripParis userBob
    (by decide) (by decide) (by decide) (by decide) (by decide) (by decide)

/-- C6: with a cached row for the location of timestamp t, a request
strictly inside the 30-minute window returns the cached payload with the
store untouched and no upstream call; a request at or after t plus 30
minutes, or with no cached row, calls upstream and on success appends a
cache row stamped with the strictly newer current time and returns the
fresh payload. -/
theorem weatherCache_freshness
    (st : Store) (now : Nat) (today : String) (up : Option Upstream) (u : Upstream)
    (loc : String) (row : WeatherCacheRow) :
    (getWeatherCache st loc = some row → now - row.timestamp < cacheTime →
      getWeatherForLocation st now today up loc = (row.data, st, false))
    ∧ (getWeatherCache st loc = some row → ¬(now - row.timestamp < cacheTime) →
      up = some u →
      getWeatherForLocation st now today up loc =
        (formatUpstream u today,
         { st with
             weatherCache := st.weatherCache ++ [{ id := st.nextCacheId, location := loc, data := formatUpstream u today, timestamp := now }],
             nextCacheId := st.nextCacheId + 1 },
         true)
      ∧ row.timestamp < now)
    ∧ (getWeatherCache st loc = Option.none → up = some u →
      getWeatherForLocation st now today up loc =
        (formatUpstream u today,
         { st with
             weatherCache := st.weatherCache ++ [{ id := st.nextCacheId, location := loc, data := formatUpstream u today, timestamp := now }],
             nextCacheId := st.nextCacheId + 1 },
         true)) := by
  refine ⟨?_, ?_, ?_⟩
  · intro hc hf
    unfold getWeatherForLocation
    rw [hc]
    simp [hf]
  · intro hc hf hu
    subst hu
    have hwin : cacheTime = 1800000 := rfl
    constructor
    · unfold getWeatherForLocation
      rw [hc]
      simp [hf, fetchAndCache, saveWeatherCache]
    · omega
  · intro hc hu
    subst hu
    unfold getWeatherForLocation
    rw [hc]
    rfl

/-- Fixture: the payload sitting in the fixture cache row. -/
def wdCachedParis : WeatherData :=
  { temperature := 20, condition := "Clouds", location := "Paris",
    date := "2025-01-01", icon := "02d" }

/-- Fixture: a cache row for Paris stamped at time zero. -/
def rowParis : WeatherCacheRow :=
  { id := 60, location := "Paris", data := wdCachedParis, timestamp := 0 }

/-- Fixture: a successful upstream response for Paris. -/
def upSunny : Upstream := { temp := 25, condition := "Clear", name := "Paris", icon := "01d" }

/-- Fixture store: empty tables except one cached Paris weather row. -/
def storeCached : Store :=
  { users := [], trips := [], schedules := [], packingItems := [], tripTags := [],
    tripMembers := [], weatherCache := [rowParis], nextMemberId := 0,
    nextScheduleId := 0, nextCacheId := 61 }

/-- Fixture store: all tables empty. -/
def storeEmpty : Store :=
  { users := [], trips := [], schedules := [], packingItems := [], tripTags := [],
    tripMembers := [], weatherCache := [], nextMemberId := 0,
    nextScheduleId := 0, nextCacheId := 0 }

/-- Witness for C6: at 10 minutes the cached Paris payload is served
as-is; at exactly 30 minutes the upstream answer is fetched, cached with
the newer timestamp and returned. -/
theorem weatherCache_freshness_witness :
    getWeatherForLocation storeCached 600000 "2025-01-02" (some upSunny) "Paris" =
      (rowParis.data, storeCached, false)
    ∧ (getWeatherForLocation storeCached 1800000 "2025-01-02" (some upSunny) "Paris" =
        (formatUpstream upSunny "2025-01-02",
         { storeCached with
             weatherCache := storeCached.weatherCache ++ [{ id := storeCached.nextCacheId, location := "Paris", data := formatUpstream upSunny "2025-01-02", timestamp := 1800000 }],
             nextCacheId := storeCached.nextCacheId + 1 },
         true)
       ∧ rowParis.timestamp < 1800000) :=
  ⟨(weatherCache_freshness storeCached 600000 "2025-01-02" (some upSunny) upSunny
      "Paris" rowParis).1 (by decide) (by decide),
   (weatherCache_freshness storeCached 1800000 "2025-01-02" (some upSunny) upSunny
      "Paris" rowParis).2.1 (by decide) (by decide) rfl⟩

/-- C7: when the upstream provider fails and was actually consulted (the
call flag is true), getWeatherForLocation returns the placeholder payload
with condition "Unknown" and default temperature 25 and leaves the store
unchanged, raising nothing; getForecast returns the empty list on
upstream failure. -/
theorem weather_upstream_failure (st : Store) (now : Nat) (today loc : String) :
    ((getWeatherForLocation st now today Option.none loc).2.2 = true →
      (getWeatherForLocation st now today Option.none loc).1 =
        { temperature := 25, condition := "Unknown", location := loc, date := today,
          icon := "01d" }
      ∧ (getWeatherForLocation st now today Option.none loc).2.1 = st)
    ∧ getForecast Option.none loc = [] := by
  constructor
  · intro hcall
    cases hc : getWeatherCache st loc with
    | none =>
      unfold getWeatherForLocation
      rw [hc]
      exact ⟨rfl, rfl⟩
    | some row =>
      by_cases hf : now - row.timestamp < cacheTime
      · exfalso
        unfold getWeatherForLocation at hcall
        rw [hc] at hcall
        simp [hf] at hcall
      · unfold getWeatherForLocation
        rw [hc]
        simp [hf, fetchAndCache, placeholderWeather]
  · rfl

/-- Witness for C7 at the empty store: the upstream is consulted, the
placeholder comes back and the store is unchanged; the forecast is
empty. -/
theorem weather_upstream_failure_witness :
    (getWeatherForLocation storeEmpty 0 "2025-01-01" Option.none "Paris").1 =
      { temperature := 25, condition := "Unknown", location := "Paris",
        date := "2025-01-01", icon := "01d" }
    ∧ (getWeatherForLocation storeEmpty 0 "2025-01-01" Option.none "Paris").2.1 = storeEmpty
    ∧ getForecast Option.none "Paris" = [] :=
  ⟨((weather_upstream_failure storeEmpty 0 "2025-01-01" "Paris").1 (by decide)).1,
   ((weather_upstream_failure storeEmpty 0 "2025-01-01" "Paris").1 (by decide)).2,
   (weather_upstream_failure storeEmpty 0 "2025-01-01" "Paris").2⟩

/-- Counterexample for C8: Alice is a member of Bob's Rome trip, so the
member-of set is nonempty and the Rome schedule and packing item derive
from it, yet getTripsByUser, getSchedulesByUser and getPackingItemsByUser
all return the empty list for Alice: the per-user reads take only the
owned set and never union the member-of set. -/
theorem byUser_reads_omit_member_trips :
    getSharedTrips storeMemberOnly 1 = [tripRome]
    ∧ getTripsByUser storeMemberOnly 1 = []
    ∧ getSchedulesByUser storeMemberOnly 1 = []
    ∧ getPackingItemsByUser storeMemberOnly 1 = []
    ∧ schedColosseum.tripId = tripRome.id
    ∧ itemHat.tripId = tripRome.id := by
  decide

/-- C8 as amended: getTripsByUser returns exactly the trips the user owns,
getSharedTrips exactly the trips the user is a member of, and
getSchedulesByUser and getPackingItemsByUser exactly the child rows of
owned trips; the member-of set is not unioned in, and none of the four
reads introduces duplicates when the underlying table has none. -/
theorem byUser_reads_owned_only
    (st : Store) (uid : Nat) (t : Trip) (s : Schedule) (i : PackingItem)
    (hts : st.trips.Nodup) (hss : st.schedules.Nodup) (his : st.packingItems.Nodup) :
    (t ∈ getTripsByUser st uid ↔ t ∈ st.trips ∧ t.userId = uid)
    ∧ (t ∈ getSharedTrips st uid ↔
        t ∈ st.trips ∧ ∃ m ∈ st.tripMembers, m.userId = uid ∧ m.tripId = t.id)
    ∧ (s ∈ getSchedulesByUser st uid ↔
        s ∈ st.schedules ∧ ∃ t2 ∈ st.trips, t2.userId = uid ∧ s.tripId = t2.id)
    ∧ (i ∈ getPackingItemsByUser st uid ↔
        i ∈ st.packingItems ∧ ∃ t2 ∈ st.trips, t2.userId = uid ∧ i.tripId = t2.id)
    ∧ (getTripsByUser st uid).Nodup ∧ (getSharedTrips st uid).Nodup
    ∧ (getSchedulesByUser st uid).Nodup ∧ (getPackingItemsByUser st uid).Nodup := by
  refine ⟨?_, ?_, ?_, ?_, ?_, ?_, ?_, ?_⟩
  · simp [getTripsByUser, List.mem_filter]
  · by_cases hids : ((st.tripMembers.filter (fun m => m.userId == uid)).map
        (fun m => m.tripId)).isEmpty
    · have hnil : st.tripMembers.filter (fun m => m.userId == uid) = [] := by
        simpa [List.isEmpty_iff] using hids
      simp only [getSharedTrips, hids, if_true]
      simp only [List.not_mem_nil, false_iff]
      rintro ⟨-, m, hm, hmu, -⟩
      have : m ∈ st.tripMembers.filter (fun m => m.userId == uid) := by
        simp [List.mem_filter, hm, hmu]
      simp [hnil] at this
    · simp only [getSharedTrips, hids, if_false]
      simp [List.mem_filter, List.mem_map]
      intro ht
      constructor
      · rintro ⟨m, ⟨hm, hmu⟩, hmt⟩
        exact ⟨m, hm, hmu, hmt⟩
      · rintro ⟨m, hm, hmu, hmt⟩
        exact ⟨m, ⟨hm, hmu⟩, hmt⟩
  · by_cases htr : (getTripsByUser st uid).isEmpty
    · have hnil : st.trips.filter (fun t => t.userId == uid) = [] := by
        simpa [getTripsByUser, List.isEmpty_iff] using htr
      simp only [getSchedulesByUser, htr, if_true]
      simp only [List.not_mem_nil, false_iff]
      rintro ⟨-, t2, ht2, htu, -⟩
      have : t2 ∈ st.trips.filter (fun t => t.userId == uid) := by
        simp [List.mem_filter, ht2, htu]
      simp [hnil] at this
    · simp only [getSchedulesByUser, htr, if_false]
      simp [getTripsByUser, List.mem_filter, List.mem_map]
      intro hs
      constructor
      · rintro ⟨t2, ⟨ht2, htu⟩, htt⟩
        exact ⟨t2, ht2, htu, htt.symm⟩
      · rintro ⟨t2, ht2, htu, htt⟩
        exact ⟨t2, ⟨ht2, htu⟩, htt.symm⟩
  · by_cases htr : (getTripsByUser st uid).isEmpty
    · have hnil : st.trips.filter (fun t => t.userId == uid) = [] := by
        simpa [getTripsByUser, List.isEmpty_iff] using htr
      simp only [getPackingItemsByUser, htr, if_true]
      simp only [List.not_mem_nil, false_iff]
      rintro ⟨-, t2, ht2, htu, -⟩
      have : t2 ∈ st.trips.filter (fun t => t.userId == uid) := by
        simp [List.mem_filter, ht2, htu]
      simp [hnil] at this
    · simp only [getPackingItemsByUser, htr, if_false]
      simp [getTripsByUser, List.mem_filter, List.mem_map]
      intro hi
      constructor
      · rintro ⟨t2, ⟨ht2, htu⟩, htt⟩
        exact ⟨t2, ht2, htu, htt.symm⟩
      · rintro ⟨t2, ht2, htu, htt⟩
        exact ⟨t2, ⟨ht2, htu⟩, htt.symm⟩
  · exact hts.filter _
  · by_cases hids : ((st.tripMembers.filter (fun m => m.userId == uid)).map
        (fun m => m.tripId)).isEmpty
    · simp only [getSharedTrips, hids, if_true]
      exact List.nodup_nil
    · simp only [getSharedTrips, hids, if_false]
      exact hts.filter _
  · by_cases htr : (getTripsByUser st uid).isEmpty
    · simp only [getSchedulesByUser, htr, if_true]
      exact List.nodup_nil
    · simp only [getSchedulesByUser, htr, if_false]
      exact hss.filter _
  · by_cases htr : (getTripsByUser st uid).isEmpty
    · simp only [getPackingItemsByUser, htr, if_true]
      exact List.nodup_nil
    · simp only [getPackingItemsByUser, htr, if_false]
      exact his.filter _

/-- Witness for the amended C8 at the member-only fixture store, for
Alice, the Rome trip and its child rows. -/
theorem byUser_reads_owned_only_witness :
    ((tripRome ∈ getTripsByUser storeMemberOnly 1 ↔
        tripRome ∈ storeMemberOnly.trips ∧ tripRome.userId = 1)
    ∧ (tripRome ∈ getSharedTrips storeMemberOnly 1 ↔
        tripRome ∈ storeMemberOnly.trips ∧
          ∃ m ∈ storeMemberOnly.tripMembers, m.userId = 1 ∧ m.tripId = tripRome.id)
    ∧ (schedColosseum ∈ getSchedulesByUser storeMemberOnly 1 ↔
        schedColosseum ∈ storeMemberOnly.schedules ∧
          ∃ t2 ∈ storeMemberOnly.trips, t2.userId = 1 ∧ schedColosseum.tripId = t2.id)
    ∧ (itemHat ∈ getPackingItemsByUser storeMemberOnly 1 ↔
        itemHat ∈ storeMemberOnly.packingItems ∧
          ∃ t2 ∈ storeMemberOnly.trips, t2.userId = 1 ∧ itemHat.tripId = t2.id)
    ∧ (getTripsByUser storeMemberOnly 1).Nodup ∧ (getSharedTrips storeMemberOnly 1).Nodup
    ∧ (getSchedulesByUser storeMemberOnly 1).Nodup
    ∧ (getPackingItemsByUser storeMemberOnly 1).Nodup) :=
  byUser_reads_owned_only storeMemberOnly 1 tripRome schedColosseum itemHat
    (by decide) (by decide) (by decide)

/-- Counterexample for C9: deleting the Paris trip removes the trip row
but leaves its schedule, packing item, tag and membership rows, all still
referencing trip id 10, in the store. -/
theorem deleteTrip_leaves_children :
    (deleteTrip storeShared 10).trips = []
    ∧ schedLouvre ∈ (deleteTrip storeShared 10).schedules
    ∧ itemSocks ∈ (deleteTrip storeShared 10).packingItems
    ∧ tagBeach ∈ (deleteTrip storeShared 10).tripTags
    ∧ memberBobViewer ∈ (deleteTrip storeShared 10).tripMembers
    ∧ schedLouvre.tripId = 10 ∧ itemSocks.tripId = 10
    ∧ tagBeach.tripId = 10 ∧ memberBobViewer.tripId = 10 := by
  decide

/-- C9 as amended: deleteTrip issues a single DELETE on the trips table:
it removes exactly the trip rows with the given id and leaves the
schedules, packing items, trip tags and trip members tables untouched (no
cascade is performed by the store). -/
theorem deleteTrip_removes_only_trip (st : Store) (id : Nat) (t : Trip) :
    (deleteTrip st id).schedules = st.schedules
    ∧ (deleteTrip st id).packingItems = st.packingItems
    ∧ (deleteTrip st id).tripTags = st.tripTags
    ∧ (deleteTrip st id).tripMembers = st.tripMembers
    ∧ (t ∈ (deleteTrip st id).trips ↔ t ∈ st.trips ∧ t.id ≠ id) := by
  refine ⟨rfl, rfl, rfl, rfl, ?_⟩
  simp [deleteTrip, List.mem_filter]

/-- C10: a GET for the literal path /api/weather/next-trip is dispatched
to the earlier-registered /api/weather/:location route with the parameter
capturing "next-trip", so the next-trip handler is unreachable, even
though that handler, run directly for a user whose only trip started
before today, would produce the explicit 404 "No upcoming trips found"
signal. -/
theorem nextTrip_route_shadowed :
    dispatchWeather ["api", "weather", "next-trip"] =
      some (.byLocation "next-trip")
    ∧ nextTripHandler storePast 5 0 "2025-01-01" 200 Option.none =
        .err 404 "No upcoming trips found" := by
  decide
